import Mathlib

/-!
Verification of the swarming LED animation (`theme_park_waits_swarm.cpp`).

The C++ source is shallowly embedded here:
* `float` quantities of the simulation logic (positions, velocities, hues)
  are modelled as exact rationals `ℚ`; the per-frame flocking force update,
  which uses `sqrt`, `sin` and `cos`, is modelled separately over the reals.
* `std::set<Position>` is modelled as `Finset Position`.
* Arduino `random(lo, hi)` draws are abstracted as oracle inputs: every
  random call of the source becomes an explicit parameter, so all theorems
  quantify over the randomness.
* `millis()`-based times (`unsigned long`) are modelled as `ℕ`; the clock is
  monotonic in the source, so truncated subtraction agrees with the
  source's unsigned subtraction.
-/

/-- Discrete pixel coordinate: `struct Position { int x, y; }`. -/
structure Position where
  x : ℤ
  y : ℤ
deriving DecidableEq, Repr

/-- RGB color with 8-bit channels: `struct Color { uint8_t r, g, b; }`. -/
structure Color where
  r : ℕ
  g : ℕ
  b : ℕ
deriving DecidableEq, Repr

/-- The strict-weak order `Position::operator<` (source lines 44-46):
lexicographic by `x` then `y`. Stated in its reflexive form, which is what
`Finset.sort` consumes; `std::set<Position>` iterates in this order. -/
def Position.lexLe (p q : Position) : Prop :=
  p.x < q.x ∨ (p.x = q.x ∧ p.y ≤ q.y)

instance : DecidableRel Position.lexLe := fun p q => by
  unfold Position.lexLe; infer_instance

instance : IsTrans Position Position.lexLe := by
  constructor
  intro a b c h1 h2
  rcases h1 with h1 | ⟨e1, h1⟩ <;> rcases h2 with h2 | ⟨e2, h2⟩ <;>
    unfold Position.lexLe <;> omega

instance : IsAntisymm Position Position.lexLe := by
  constructor
  intro a b h1 h2
  cases a; cases b
  simp only [Position.lexLe, Position.mk.injEq] at h1 h2 ⊢
  omega

instance : IsTotal Position Position.lexLe := by
  constructor
  intro a b
  unfold Position.lexLe
  omega

/-- Truncation of a rational toward zero, the rounding used by C `fmod`. -/
def ratTrunc (q : ℚ) : ℤ :=
  if 0 ≤ q then ⌊q⌋ else -⌊-q⌋

/-- C `fmod(x, y)`: `x - y * trunc(x / y)`; the result carries the sign of
the dividend, so for negative `x` it lies in `(-y, 0]`, not `[0, y)`. -/
def fmodQ (x y : ℚ) : ℚ :=
  x - y * (ratTrunc (x / y) : ℚ)

/-- The C++ cast `(uint8_t)(f)` applied to a channel value: truncation of a
float to an 8-bit integer. The cast has defined behavior only for values in
`[0, 256)`, where truncation toward zero coincides with the floor; negative
values (reachable only through the undefined-behavior branch exercised by
negative hues) are modelled as 0. -/
def toByte (q : ℚ) : ℕ :=
  ⌊q⌋.toNat

/-- Embedding of `hsvToRgb` (source lines 70-96): wrap the hue with C
`fmod`, compute chroma `c`, secondary component `x` and offset `m`, select
the sector by the wrapped hue, and truncate each channel to 8 bits. -/
def hsvToRgb (h0 s v : ℚ) : Color :=
  let h := fmodQ h0 1
  let c := v * s
  let x := c * (1 - |fmodQ (h * 6) 2 - 1|)
  let m := v - c
  let rgb : ℚ × ℚ × ℚ :=
    if h < 1/6 then (c, x, 0)
    else if h < 2/6 then (x, c, 0)
    else if h < 3/6 then (0, c, x)
    else if h < 4/6 then (0, x, c)
    else if h < 5/6 then (x, 0, c)
    else (c, 0, x)
  ⟨toByte ((rgb.1 + m) * 255), toByte ((rgb.2.1 + m) * 255), toByte ((rgb.2.2 + m) * 255)⟩

/-- The exact (pre-quantization) channel values of the standard HSV to RGB
conversion described by the spec: the hue is reduced by the mathematical
modulus into `[0, 1)`, and each returned channel is the exact real-valued
conversion result in `[0, 1]`, before 8-bit truncation. -/
def specHsvChannels (h0 s v : ℚ) : ℚ × ℚ × ℚ :=
  let h := h0 - ⌊h0⌋
  let c := v * s
  let x := c * (1 - |(h * 6 - 2 * ⌊h * 6 / 2⌋) - 1|)
  let m := v - c
  let rgb : ℚ × ℚ × ℚ :=
    if h < 1/6 then (c, x, 0)
    else if h < 2/6 then (x, c, 0)
    else if h < 3/6 then (0, c, x)
    else if h < 4/6 then (0, x, c)
    else if h < 5/6 then (x, 0, c)
    else (c, 0, x)
  (rgb.1 + m, rgb.2.1 + m, rgb.2.2 + m)

/-- Embedding of `getDynamicFlockColor` (source lines 101-108). -/
def getDynamicFlockColor (timeElapsed : ℚ) (birdIndex : ℕ) : Color :=
  let hueOffset := fmodQ (timeElapsed * 0.5 + (birdIndex : ℚ) * 0.1) 1
  hsvToRgb hueOffset 0.9 0.8

/-- Embedding of `getDynamicTextColor` (source lines 113-123). -/
def getDynamicTextColor (timeElapsed : ℚ) (pixelPos : Position) : Color :=
  let positionOffset := ((pixelPos.x : ℚ) / 64 + (pixelPos.y : ℚ) / 32) * 0.3
  let hue := fmodQ (timeElapsed * 0.2 + positionOffset) 1
  hsvToRgb hue 1 1

/-- Continuous 2D vector over exact rationals (the simulation-logic view of
`struct Vector2D`; the force update that needs `sqrt`, `sin`, `cos` is
modelled separately over the reals below). -/
structure Vec2 where
  x : ℚ
  y : ℚ
deriving DecidableEq, Repr

/-- Per-unit state of `class FlockBird` (source lines 258-272). -/
structure FlockBird where
  position : Vec2
  velocity : Vec2
  phase : ℚ
  speedMultiplier : ℚ
  separationRadius : ℚ
deriving DecidableEq, Repr

/-- Placeholder bird used as the default value of list lookups. -/
def dummyBird : FlockBird :=
  { position := ⟨0, 0⟩, velocity := ⟨0, 0⟩, phase := 0,
    speedMultiplier := 0, separationRadius := 0 }

instance : Inhabited FlockBird := ⟨dummyBird⟩

/-- C `round`: round half away from zero, as used in `getPixelPos`. -/
def roundHalfAway (q : ℚ) : ℤ :=
  if 0 ≤ q then ⌊q + 1/2⌋ else -⌊-q + 1/2⌋

/-- Embedding of `FlockBird::getPixelPos` (source lines 274-276). -/
def FlockBird.getPixelPos (b : FlockBird) : Position :=
  ⟨roundHalfAway b.position.x, roundHalfAway b.position.y⟩

/-- Embedding of `FlockBird::isOnScreen` (source lines 278-280); the screen
is `WIDTH = 64` by `HEIGHT = 32`. -/
def FlockBird.isOnScreen (b : FlockBird) : Bool :=
  decide (0 ≤ b.position.x ∧ b.position.x < 64 ∧ 0 ≤ b.position.y ∧ b.position.y < 32)

/-- The despawn predicate of the cleanup step (source lines 571-575): a bird
is removed when its position is more than 25 units beyond a screen edge. -/
def despawnPred (b : FlockBird) : Bool :=
  decide (b.position.x < -25 ∨ 89 < b.position.x ∨ b.position.y < -25 ∨ 57 < b.position.y)

/-- The ordered spawn-direction list (source line 415). -/
def directions : List String :=
  [ "left", "right", "top", "bottom", "top_left", "top_right", "bottom_left", "bottom_right" ]

/-- Source line 416: `numDirections = 8`. -/
def numDirections : ℕ := 8

/-- Default used for the (never out-of-range) direction-array lookup. -/
def defaultDirection : String := "left"

/-- Oracle holding every Arduino `random(lo, hi)` draw that one spawn event
can make; each field stands for one call site of the source, indexed by the
bird number where the call is per bird. `dirJitter` is the single
`random(-50, 50) / 100` draw of whichever direction branch runs. -/
structure SpawnOracle where
  dirJitter : ℚ
  posJitterX : ℕ → ℚ
  posJitterY : ℕ → ℚ
  birdPhase : ℕ → ℚ
  birdSpeedMult : ℕ → ℚ
  birdSepRadius : ℕ → ℚ
  velJitterX : ℕ → ℚ
  velJitterY : ℕ → ℚ

/-- An oracle in which every random draw returns 0 (used for concrete
instantiations; all theorems hold for every oracle). -/
def zeroOracle : SpawnOracle :=
  ⟨0, fun _ => 0, fun _ => 0, fun _ => 0, fun _ => 0, fun _ => 0, fun _ => 0, fun _ => 0⟩

/-- Entry point `(baseX, baseY)` chosen by `createFlockFromDirection`
(source lines 429-444): axis directions start outside the screen, while the
`else` branch used by all four diagonals is the simplified point `(32, 16)`. -/
def entryBase (direction : String) : Vec2 :=
  if direction = "left" then ⟨-10, 16⟩
  else if direction = "right" then ⟨74, 16⟩
  else if direction = "top" then ⟨32, -10⟩
  else if direction = "bottom" then ⟨32, 42⟩
  else ⟨32, 16⟩

/-- Base flight direction chosen by `createFlockFromDirection`
(source lines 429-444); `j` is the `random(-50, 50) / 100` draw. -/
def entryFlightDir (direction : String) (j : ℚ) : Vec2 :=
  if direction = "left" then ⟨2, j⟩
  else if direction = "right" then ⟨-2, j⟩
  else if direction = "top" then ⟨j, 2⟩
  else if direction = "bottom" then ⟨j, -2⟩
  else ⟨1, 1⟩

/-- The `FlockBird` constructor (source lines 266-272): position from the
caller, velocity `direction * random(80, 120) / 100` per component, and the
per-unit random phase, speed multiplier and separation radius. -/
def mkFlockBird (x y : ℚ) (direction : Vec2) (ph sm sr vjx vjy : ℚ) : FlockBird :=
  { position := ⟨x, y⟩,
    velocity := ⟨direction.x * vjx, direction.y * vjy⟩,
    phase := ph,
    speedMultiplier := sm,
    separationRadius := sr }

/-- Embedding of `createFlockFromDirection` (source lines 422-460): pick the
entry point and flight direction for the direction string, then create
`numBirds` birds in an 8-wide grid (`row = i / 8`, `col = i % 8`) with
per-bird random jitter. -/
def createFlockFromDirection (numBirds : ℕ) (direction : String) (or : SpawnOracle) :
    List FlockBird :=
  let base := entryBase direction
  let flightDir := entryFlightDir direction or.dirJitter
  (List.range numBirds).map fun i =>
    let row : ℕ := i / 8
    let col : ℕ := i % 8
    let offsetX := ((col : ℚ) - 4) * 2 + or.posJitterX i
    let offsetY := (row : ℚ) * 3 + or.posJitterY i
    mkFlockBird (base.x + offsetX) (base.y + offsetY) flightDir
      (or.birdPhase i) (or.birdSpeedMult i) (or.birdSepRadius i)
      (or.velJitterX i) (or.velJitterY i)

/-- The global mutable state of the sketch (source lines 404-413) together
with the immutable target mask. -/
structure SimState where
  targetPixels : Finset Position
  capturedPixels : Finset Position
  flock : List FlockBird
  startTime : ℕ
  lastUpdate : ℕ
  lastSpawnTime : ℕ
  currentDirectionIdx : ℕ
  animationComplete : Bool
  completionTime : ℕ

/-- The spawn block of `loop` (source lines 524-545): if uncaptured target
pixels remain, more than 3000 ms passed since the last spawn, and fewer than
200 birds are active, append a wave of `min 50 remaining` birds and advance
the direction index. -/
def spawnStep (s : SimState) (currentTime : ℕ) (or : SpawnOracle) : SimState :=
  let remainingLeds := s.targetPixels.card - s.capturedPixels.card
  if 0 < remainingLeds ∧ 3000 < (currentTime - s.startTime) - s.lastSpawnTime ∧
      s.flock.length < 200 then
    let birdsToSpawn := min 50 remainingLeds
    let direction := directions.getD s.currentDirectionIdx defaultDirection
    { s with
      flock := s.flock ++ createFlockFromDirection birdsToSpawn direction or,
      currentDirectionIdx := (s.currentDirectionIdx + 1) % numDirections,
      lastSpawnTime := currentTime - s.startTime }
  else s

/-- The body of the capture scan for one bird (source lines 554-567): when
the bird is on screen and its rounded pixel position is an uncaptured
target-mask member, insert it into the captured set. -/
def captureOne (target : Finset Position) (cap : Finset Position) (b : FlockBird) :
    Finset Position :=
  if b.isOnScreen then
    let pixelPos := b.getPixelPos
    if pixelPos ∈ target ∧ pixelPos ∉ cap then insert pixelPos cap else cap
  else cap

/-- The capture scan of `loop` (source lines 553-568): fold `captureOne`
over the flock in order. -/
def captureScan (target : Finset Position) (flock : List FlockBird)
    (captured : Finset Position) : Finset Position :=
  flock.foldl (captureOne target) captured

/-- State part of the capture scan. -/
def captureStep (s : SimState) : SimState :=
  { s with capturedPixels := captureScan s.targetPixels s.flock s.capturedPixels }

/-- The cleanup filter of `loop` (source lines 571-575). -/
def cleanupFlock (flock : List FlockBird) : List FlockBird :=
  flock.filter fun b => ! despawnPred b

/-- State part of the cleanup step. -/
def cleanupStep (s : SimState) : SimState :=
  { s with flock := cleanupFlock s.flock }

/-- The `!textComplete` body of `loop` (source lines 523-576): spawn, then
the per-bird flocking update, then the capture scan, then cleanup. The
in-place flocking pass (source lines 548-550) is abstracted as the function
`upd` on the whole flock; every theorem below holds for all `upd`, in
particular for the real-valued `RFlockBird.updateFlocking` pass. -/
def runningStep (s : SimState) (currentTime : ℕ) (or : SpawnOracle)
    (upd : List FlockBird → List FlockBird) : SimState :=
  let s1 := spawnStep s currentTime or
  let s2 := { s1 with flock := upd s1.flock }
  cleanupStep (captureStep s2)

/-- The render pass of `loop` (source lines 578-599) as the list of
`drawPixel` calls of one frame: every captured pixel with its text color,
then every on-screen bird (indexed by its position in the flock vector)
with its flock color. `matrix.color565` packing is display-driver boundary
and is not modelled; sorting by `Position.lexLe` is the ascending
`std::set<Position>` iteration order. -/
def renderDraws (s : SimState) (timeElapsed : ℚ) : List (Position × Color) :=
  ((s.capturedPixels.sort Position.lexLe).map fun p =>
      (p, getDynamicTextColor timeElapsed p)) ++
    (s.flock.enum.filterMap fun bi =>
      if bi.2.isOnScreen then
        some (bi.2.getPixelPos, getDynamicFlockColor timeElapsed bi.1)
      else none)

/-- Embedding of one invocation of `loop` (source lines 491-600), returning
the new global state and the frame's draw calls. `currentTime` is the
`millis()` reading; `or` fixes the spawn randomness and `upd` the in-place
flocking pass of this frame. -/
def loopStep (s : SimState) (currentTime : ℕ) (or : SpawnOracle)
    (upd : List FlockBird → List FlockBird) : SimState × List (Position × Color) :=
  if currentTime - s.lastUpdate < 50 then (s, [])
  else
    let timeElapsed : ℚ := ((currentTime - s.startTime : ℕ) : ℚ) / 1000
    let s1 := { s with lastUpdate := currentTime }
    let textComplete := decide (s1.targetPixels.card ≤ s1.capturedPixels.card)
    let s2 := if textComplete ∧ s1.completionTime = 0
              then { s1 with completionTime := currentTime } else s1
    if s2.completionTime ≠ 0 ∧ 1000 ≤ currentTime - s2.completionTime then
      ({ s2 with animationComplete := true }, [])
    else
      let s3 := if textComplete then s2 else runningStep s2 currentTime or upd
      (s3, renderDraws s3 timeElapsed)

/-- Real-valued 2D vector, the view of `struct Vector2D` used by the force
update, whose `magnitude` needs `sqrt` and whose jitter needs `sin`/`cos`. -/
structure RVec2 where
  x : ℝ
  y : ℝ

instance : Add RVec2 := ⟨fun a b => ⟨a.x + b.x, a.y + b.y⟩⟩

instance : Sub RVec2 := ⟨fun a b => ⟨a.x - b.x, a.y - b.y⟩⟩

/-- `Vector2D::operator*(float)`. -/
instance : HMul RVec2 ℝ RVec2 := ⟨fun v c => ⟨v.x * c, v.y * c⟩⟩

/-- `Vector2D::magnitude` (source line 60): `sqrt(x*x + y*y)`. -/
noncomputable def RVec2.magnitude (v : RVec2) : ℝ :=
  Real.sqrt (v.x * v.x + v.y * v.y)

/-- `Vector2D::normalize` (source lines 61-64): divide by the magnitude when
it is positive, otherwise return the zero vector. -/
noncomputable def RVec2.normalize (v : RVec2) : RVec2 :=
  if 0 < v.magnitude then ⟨v.x / v.magnitude, v.y / v.magnitude⟩ else ⟨0, 0⟩

/-- Real-valued per-unit state, the view of `class FlockBird` taken by the
force update. -/
structure RFlockBird where
  position : RVec2
  velocity : RVec2
  phase : ℝ
  speedMultiplier : ℝ
  separationRadius : ℝ

/-- `FlockBird::separationRule` (source lines 312-333). `others` is the
flock without the bird itself: the C++ iterates the whole vector and skips
the bird by address (`&other == this`). -/
noncomputable def RFlockBird.separationRule (b : RFlockBird) (others : List RFlockBird) :
    RVec2 :=
  let acc := others.foldl
    (fun (acc : RVec2 × ℕ) other =>
      let diff := b.position - other.position
      let distance := diff.magnitude
      if 0 < distance ∧ distance < b.separationRadius then
        (acc.1 + diff.normalize * ((1 : ℝ) / distance), acc.2 + 1)
      else acc)
    (⟨0, 0⟩, 0)
  if 0 < acc.2 then acc.1 * ((acc.2 : ℝ))⁻¹ else acc.1

/-- `FlockBird::alignmentRule` (source lines 335-358), neighbor radius 8. -/
noncomputable def RFlockBird.alignmentRule (b : RFlockBird) (others : List RFlockBird) :
    RVec2 :=
  let acc := others.foldl
    (fun (acc : RVec2 × ℕ) other =>
      let diff := b.position - other.position
      if diff.magnitude < 8 then (acc.1 + other.velocity, acc.2 + 1) else acc)
    (⟨0, 0⟩, 0)
  if 0 < acc.2 then acc.1 * ((acc.2 : ℝ))⁻¹ - b.velocity else ⟨0, 0⟩

/-- `FlockBird::cohesionRule` (source lines 360-383), neighbor radius 12,
strength `0.01`. -/
noncomputable def RFlockBird.cohesionRule (b : RFlockBird) (others : List RFlockBird) :
    RVec2 :=
  let acc := others.foldl
    (fun (acc : RVec2 × ℕ) other =>
      let diff := b.position - other.position
      if diff.magnitude < 12 then (acc.1 + other.position, acc.2 + 1) else acc)
    (⟨0, 0⟩, 0)
  if 0 < acc.2 then (acc.1 * ((acc.2 : ℝ))⁻¹ - b.position) * (0.01 : ℝ) else ⟨0, 0⟩

/-- `FlockBird::attractionRule` (source lines 385-401): steer toward the
attraction center at strength `0.5` when one is supplied (the top-level
loop always passes `nullptr`, modelled as `none`). -/
noncomputable def RFlockBird.attractionRule (b : RFlockBird) (attractionCenter : Option RVec2) :
    RVec2 :=
  match attractionCenter with
  | none => ⟨0, 0⟩
  | some center =>
      let diff := center - b.position
      let distance := diff.magnitude
      if 0 < distance then diff.normalize * (0.5 : ℝ) else ⟨0, 0⟩

/-- The velocity accumulated by `FlockBird::updateFlocking` before the
clamp (source lines 287-298): weighted flocking forces plus the
wing-flapping jitter at elapsed time `currentTime` seconds. -/
noncomputable def RFlockBird.forcedVelocity (b : RFlockBird) (others : List RFlockBird)
    (currentTime : ℝ) (attractionCenter : Option RVec2) : RVec2 :=
  let v := b.velocity + b.separationRule others * (0.15 : ℝ) +
    b.alignmentRule others * (0.1 : ℝ) + b.cohesionRule others * (0.05 : ℝ) +
    b.attractionRule attractionCenter * (0.3 : ℝ)
  ⟨v.x + 0.05 * Real.sin (b.phase + currentTime * 8) * b.speedMultiplier,
   v.y + 0.03 * Real.cos (b.phase + currentTime * 6) * b.speedMultiplier⟩

/-- Embedding of `FlockBird::updateFlocking` (source lines 282-309):
accumulate forces and jitter, clamp the velocity magnitude to `maxVel = 3`
by rescaling through `normalize`, then integrate the position with the
fixed factor `0.4`. -/
noncomputable def RFlockBird.updateFlocking (b : RFlockBird) (others : List RFlockBird)
    (currentTime : ℝ) (attractionCenter : Option RVec2) : RFlockBird :=
  let velocity := b.forcedVelocity others currentTime attractionCenter
  let velocity := if 3 < velocity.magnitude then velocity.normalize * (3 : ℝ) else velocity
  { b with velocity := velocity, position := b.position + velocity * (0.4 : ℝ) }

/-- A bird at the given position with all other fields zero, used for
concrete state instantiations. -/
def birdAt (x y : ℚ) : FlockBird :=
  { dummyBird with position := ⟨x, y⟩ }

/-- Concrete running state: one-pixel target at `(3, 3)`, nothing captured,
one bird sitting on the target pixel. -/
def stateCapture : SimState :=
  { targetPixels := {⟨3, 3⟩},
    capturedPixels := ∅,
    flock := [birdAt 3 3],
    startTime := 0, lastUpdate := 0, lastSpawnTime := 0,
    currentDirectionIdx := 0, animationComplete := false, completionTime := 0 }

/-- Concrete completed state: target equals captured, completion timestamp
already recorded at 5 ms, one bird still sitting on the target pixel. -/
def stateDone : SimState :=
  { targetPixels := {⟨1, 1⟩},
    capturedPixels := {⟨1, 1⟩},
    flock := [birdAt 1 1],
    startTime := 0, lastUpdate := 0, lastSpawnTime := 0,
    currentDirectionIdx := 0, animationComplete := false, completionTime := 5 }

/-- Concrete just-completed state: target equals captured but the
completion timestamp is still unset. -/
def stateJustDone : SimState :=
  { stateDone with completionTime := 0 }

/-- Concrete running state whose only bird is far off screen at
`x = -30`. -/
def stateFarBird : SimState :=
  { stateCapture with flock := [birdAt (-30) 10] }

/-- Concrete running state with 4 target pixels of which 1 is captured
(`remaining = 3`) and an empty flock, ready to spawn. -/
def stateSpawn : SimState :=
  { targetPixels := {⟨0, 0⟩, ⟨1, 0⟩, ⟨2, 0⟩, ⟨3, 0⟩},
    capturedPixels := {⟨0, 0⟩},
    flock := [],
    startTime := 0, lastUpdate := 0, lastSpawnTime := 0,
    currentDirectionIdx := 0, animationComplete := false, completionTime := 0 }

/-- A bird whose continuous position `x = 63.7` passes the on-screen test
but rounds to pixel column 64. -/
def edgeBird : FlockBird :=
  birdAt (637/10) 10

/-- Concrete state exercising the rounding overflow: the target mask
(artificially) contains the out-of-grid coordinate `(64, 10)` so that the
capture check's verdict on that coordinate is observable. -/
def stateEdge : SimState :=
  { stateCapture with targetPixels := {⟨64, 10⟩}, flock := [edgeBird] }

/-- A bird exactly on the extended-margin boundary `x = -25`. -/
def boundaryBird : FlockBird :=
  birdAt (-25) 0

/-- The fifth entry of the direction list. -/
def dirTopLeft : String := "top_left"

/-! ## General lemmas -/

theorem fmodQ_nonneg_eq (x y : ℚ) (hx : 0 ≤ x) (hy : 0 < y) :
    fmodQ x y = x - y * (⌊x / y⌋ : ℚ) := by
  unfold fmodQ ratTrunc
  rw [if_pos (div_nonneg hx hy.le)]

theorem fmodQ_one_eq (x : ℚ) (hx : 0 ≤ x) : fmodQ x 1 = x - (⌊x⌋ : ℚ) := by
  rw [fmodQ_nonneg_eq x 1 hx one_pos, div_one, one_mul]

theorem fmodQ_one_self (x : ℚ) (h0 : 0 ≤ x) (h1 : x < 1) : fmodQ x 1 = x := by
  rw [fmodQ_one_eq x h0, Int.floor_eq_zero_iff.mpr ⟨h0, h1⟩]
  simp

/-! ## Claim theorems: color model -/

/-- C5: `hsvToRgb(h, 1, 1)` at the six primary hues `0, 1/6, ..., 5/6`
returns pure red, yellow, green, cyan, blue and magenta, exactly. -/
theorem hsvToRgb_pure_colors :
    hsvToRgb 0 1 1 = ⟨255, 0, 0⟩ ∧
    hsvToRgb (1/6) 1 1 = ⟨255, 255, 0⟩ ∧
    hsvToRgb (2/6) 1 1 = ⟨0, 255, 0⟩ ∧
    hsvToRgb (3/6) 1 1 = ⟨0, 255, 255⟩ ∧
    hsvToRgb (4/6) 1 1 = ⟨0, 0, 255⟩ ∧
    hsvToRgb (5/6) 1 1 = ⟨255, 0, 255⟩ := by
  with_unfolding_all decide

/-- C4 counterexample: at the negative hue `-1/2`, the C `fmod` used by
`hsvToRgb` yields `-1/2`, which does not lie in `[0, 1)`, and the result
differs from the conversion at the mathematically wrapped hue `1/2`
(cyan); the red channel differs (255 versus 0), and that channel's
computation never leaves the cast's defined-behavior range. -/
theorem hsvToRgb_negative_hue_not_wrapped :
    fmodQ (-(1:ℚ)/2) 1 = -(1:ℚ)/2 ∧
    ¬ (0 ≤ fmodQ (-(1:ℚ)/2) 1) ∧
    (hsvToRgb (-(1:ℚ)/2) 1 1).r = 255 ∧
    hsvToRgb ((1:ℚ)/2) 1 1 = ⟨0, 255, 255⟩ ∧
    hsvToRgb (-(1:ℚ)/2) 1 1 ≠ hsvToRgb ((-(1:ℚ)/2) - (⌊-(1:ℚ)/2⌋ : ℚ)) 1 1 := by
  with_unfolding_all decide

/-- C4 (amended): for every nonnegative hue `h` and any `s`, `v`, the
`fmod` reduction lands in `[0, 1)` and equals the mathematical
`h mod 1 = h - ⌊h⌋`, the conversion is invariant under that reduction, and
each output channel is the exact standard-conversion channel value
quantized to 8 bits by truncation. (For negative hues the reduction lands
in `(-1, 0]` instead — see the counterexample.) -/
theorem hsvToRgb_wraps_nonneg_hue (h s v : ℚ) (hh : 0 ≤ h) :
    0 ≤ fmodQ h 1 ∧ fmodQ h 1 < 1 ∧ fmodQ h 1 = h - (⌊h⌋ : ℚ) ∧
    hsvToRgb h s v = hsvToRgb (fmodQ h 1) s v ∧
    hsvToRgb h s v = ⟨toByte ((specHsvChannels h s v).1 * 255),
                      toByte ((specHsvChannels h s v).2.1 * 255),
                      toByte ((specHsvChannels h s v).2.2 * 255)⟩ := by
  have e1 : fmodQ h 1 = h - (⌊h⌋ : ℚ) := fmodQ_one_eq h hh
  have h0 : 0 ≤ fmodQ h 1 := by
    rw [e1]; exact sub_nonneg.mpr (Int.floor_le h)
  have h1 : fmodQ h 1 < 1 := by
    rw [e1]; have := Int.lt_floor_add_one h; linarith
  have e2 : fmodQ (fmodQ h 1) 1 = fmodQ h 1 := fmodQ_one_self _ h0 h1
  have e3 : fmodQ (fmodQ h 1 * 6) 2 = fmodQ h 1 * 6 - 2 * (⌊fmodQ h 1 * 6 / 2⌋ : ℚ) :=
    fmodQ_nonneg_eq _ 2 (by positivity) two_pos
  refine ⟨h0, h1, e1, ?_, ?_⟩
  · simp only [hsvToRgb]
    rw [e2]
  · simp only [hsvToRgb, specHsvChannels]
    rw [← e1, e3]

/-! ## Claim theorems: despawn boundary -/

/-- C9: the despawn predicate uses strict inequalities, so a unit exactly
on the extended-margin boundary (`x = -25`, `x = 89`, `y = -25` or
`y = 57`, the other coordinate within the margin) does not satisfy it and
survives the cleanup filter. -/
theorem despawn_boundary_survives (b : FlockBird) (flock : List FlockBird)
    (hmem : b ∈ flock)
    (hx : -25 ≤ b.position.x ∧ b.position.x ≤ 89)
    (hy : -25 ≤ b.position.y ∧ b.position.y ≤ 57)
    (_hedge : b.position.x = -25 ∨ b.position.x = 89 ∨
      b.position.y = -25 ∨ b.position.y = 57) :
    despawnPred b = false ∧ b ∈ cleanupFlock flock := by
  have hd : despawnPred b = false := by
    simp only [despawnPred, decide_eq_false_iff_not, not_or, not_lt]
    exact ⟨hx.1, hx.2, hy.1, hy.2⟩
  refine ⟨hd, ?_⟩
  simp only [cleanupFlock, List.mem_filter, hd]
  exact ⟨hmem, rfl⟩

/-- C9 witness: a bird exactly at `x = -25` survives the cleanup of a
one-bird flock. -/
theorem despawn_boundary_survives_witness :
    despawnPred boundaryBird = false ∧ boundaryBird ∈ cleanupFlock [boundaryBird] :=
  despawn_boundary_survives boundaryBird [boundaryBird]
    (by with_unfolding_all decide)
    (by with_unfolding_all decide)
    (by with_unfolding_all decide)
    (by with_unfolding_all decide)

/-! ## Lemmas about the loop's steps -/

theorem captureOne_subset (target cap : Finset Position) (b : FlockBird) :
    cap ⊆ captureOne target cap b := by
  unfold captureOne
  dsimp only
  split
  · split
    · exact Finset.subset_insert _ _
    · exact subset_rfl
  · exact subset_rfl

theorem captureOne_subset_union (target cap : Finset Position) (b : FlockBird) :
    captureOne target cap b ⊆ cap ∪ target := by
  unfold captureOne
  dsimp only
  split
  · split
    · next hmem =>
        intro p hp
        rcases Finset.mem_insert.mp hp with rfl | hp
        · exact Finset.mem_union_right _ hmem.1
        · exact Finset.mem_union_left _ hp
    · exact Finset.subset_union_left
  · exact Finset.subset_union_left

theorem captureScan_subset (target : Finset Position) (flock : List FlockBird) :
    ∀ cap : Finset Position, cap ⊆ captureScan target flock cap := by
  induction flock with
  | nil => intro cap; exact subset_rfl
  | cons b tl ih =>
      intro cap
      exact subset_trans (captureOne_subset target cap b) (ih _)

theorem captureScan_subset_union (target : Finset Position) (flock : List FlockBird) :
    ∀ cap : Finset Position, captureScan target flock cap ⊆ cap ∪ target := by
  induction flock with
  | nil => intro cap; exact Finset.subset_union_left
  | cons b tl ih =>
      intro cap
      have h1 : captureScan target (b :: tl) cap =
          captureScan target tl (captureOne target cap b) := rfl
      rw [h1]
      refine subset_trans (ih _) ?_
      intro p hp
      rcases Finset.mem_union.mp hp with hp | hp
      · exact (Finset.union_subset_union_left subset_rfl : _ ⊆ _) <| by
          rcases Finset.mem_union.mp (captureOne_subset_union target cap b hp) with h | h
          · exact Finset.mem_union_left _ h
          · exact Finset.mem_union_right _ h
      · exact Finset.mem_union_right _ hp

theorem spawnStep_capturedPixels (s : SimState) (t : ℕ) (or : SpawnOracle) :
    (spawnStep s t or).capturedPixels = s.capturedPixels := by
  unfold spawnStep
  dsimp only
  split <;> rfl

theorem spawnStep_targetPixels (s : SimState) (t : ℕ) (or : SpawnOracle) :
    (spawnStep s t or).targetPixels = s.targetPixels := by
  unfold spawnStep
  dsimp only
  split <;> rfl

theorem spawnStep_completionTime (s : SimState) (t : ℕ) (or : SpawnOracle) :
    (spawnStep s t or).completionTime = s.completionTime := by
  unfold spawnStep
  dsimp only
  split <;> rfl

theorem runningStep_capturedPixels (s : SimState) (t : ℕ) (or : SpawnOracle)
    (upd : List FlockBird → List FlockBird) :
    (runningStep s t or upd).capturedPixels =
      captureScan s.targetPixels (upd (spawnStep s t or).flock) s.capturedPixels := by
  unfold runningStep cleanupStep captureStep
  simp [spawnStep_targetPixels, spawnStep_capturedPixels]

theorem runningStep_targetPixels (s : SimState) (t : ℕ) (or : SpawnOracle)
    (upd : List FlockBird → List FlockBird) :
    (runningStep s t or upd).targetPixels = s.targetPixels := by
  unfold runningStep cleanupStep captureStep
  simp [spawnStep_targetPixels]

theorem runningStep_completionTime (s : SimState) (t : ℕ) (or : SpawnOracle)
    (upd : List FlockBird → List FlockBird) :
    (runningStep s t or upd).completionTime = s.completionTime := by
  unfold runningStep cleanupStep captureStep
  simp [spawnStep_completionTime]

theorem runningStep_flock (s : SimState) (t : ℕ) (or : SpawnOracle)
    (upd : List FlockBird → List FlockBird) :
    (runningStep s t or upd).flock = cleanupFlock (upd (spawnStep s t or).flock) := by
  unfold runningStep cleanupStep captureStep
  rfl

theorem captureScan_subset_target (target : Finset Position) (flock : List FlockBird)
    (cap : Finset Position) (h : cap ⊆ target) :
    captureScan target flock cap ⊆ target :=
  subset_trans (captureScan_subset_union target flock cap)
    (Finset.union_subset h subset_rfl)

theorem captureScan_card_le (target : Finset Position) (flock : List FlockBird)
    (cap : Finset Position) :
    cap.card ≤ (captureScan target flock cap).card :=
  Finset.card_le_card (captureScan_subset target flock cap)

/-! ## Claim theorems: capture invariants -/

/-- C1: over one `loop` invocation (for every time reading, spawn
randomness and flocking update), the target mask is unchanged, the
captured set only grows, it stays inside the target mask, and its size is
non-decreasing: the only mutation of the captured set is insertion of
uncaptured target-mask coordinates. -/
theorem loopStep_captured_invariant (s : SimState) (t : ℕ) (or : SpawnOracle)
    (upd : List FlockBird → List FlockBird)
    (h : s.capturedPixels ⊆ s.targetPixels) :
    ((loopStep s t or upd).1).targetPixels = s.targetPixels ∧
    s.capturedPixels ⊆ ((loopStep s t or upd).1).capturedPixels ∧
    ((loopStep s t or upd).1).capturedPixels ⊆ s.targetPixels ∧
    s.capturedPixels.card ≤ ((loopStep s t or upd).1).capturedPixels.card := by
  unfold loopStep
  dsimp only
  split_ifs
  all_goals
    first
    | exact ⟨rfl, subset_rfl, h, le_rfl⟩
    | (refine ⟨runningStep_targetPixels _ _ _ _, ?_, ?_, ?_⟩ <;>
        rw [runningStep_capturedPixels] <;>
        first
          | exact captureScan_subset _ _ _
          | exact captureScan_subset_target _ _ _ h
          | exact captureScan_card_le _ _ _)

/-- C1 witness: concrete instantiation at `stateCapture` (one-pixel target,
one bird sitting on it) at time 100 ms; the hypothesis and the invariants
are evaluated on the concrete state. -/
theorem loopStep_captured_invariant_witness :
    stateCapture.capturedPixels ⊆ stateCapture.targetPixels ∧
    (((loopStep stateCapture 100 zeroOracle id).1).targetPixels = stateCapture.targetPixels ∧
      stateCapture.capturedPixels ⊆
        ((loopStep stateCapture 100 zeroOracle id).1).capturedPixels ∧
      ((loopStep stateCapture 100 zeroOracle id).1).capturedPixels ⊆
        stateCapture.targetPixels ∧
      stateCapture.capturedPixels.card ≤
        ((loopStep stateCapture 100 zeroOracle id).1).capturedPixels.card) ∧
    ((loopStep stateCapture 100 zeroOracle id).1).capturedPixels = {⟨3, 3⟩} :=
  ⟨by with_unfolding_all decide,
   loopStep_captured_invariant stateCapture 100 zeroOracle id (by with_unfolding_all decide),
   by with_unfolding_all decide⟩

/-- C2: once the completion timestamp is nonzero it is never changed by a
later frame; once the captured set has reached the target-mask size, no
frame inserts anything further (even with birds over target pixels); and
the timestamp is set, to the frame's time reading, exactly at the first
gated frame at which the size is reached. -/
theorem loopStep_completion_frozen (s : SimState) (t : ℕ) (or : SpawnOracle)
    (upd : List FlockBird → List FlockBird) :
    (s.completionTime ≠ 0 →
      ((loopStep s t or upd).1).completionTime = s.completionTime) ∧
    (s.targetPixels.card ≤ s.capturedPixels.card →
      ((loopStep s t or upd).1).capturedPixels = s.capturedPixels) ∧
    (¬ t - s.lastUpdate < 50 → s.completionTime = 0 →
      s.targetPixels.card ≤ s.capturedPixels.card →
      ((loopStep s t or upd).1).completionTime = t) := by
  unfold loopStep
  dsimp only
  split_ifs
  all_goals
    refine ⟨fun hct => ?_, fun htc => ?_, fun hg hct htc => ?_⟩ <;>
      simp_all [runningStep_completionTime, runningStep_capturedPixels]

/-- C2 witness: at the completed state `stateDone` (timestamp 5, captured
equals target, a bird still on the target pixel) the timestamp and the
captured set are unchanged by the frame at 100 ms; at `stateJustDone`
(timestamp still 0) the same frame sets the timestamp to 100. -/
theorem loopStep_completion_frozen_witness :
    ((loopStep stateDone 100 zeroOracle id).1).completionTime = 5 ∧
    ((loopStep stateDone 100 zeroOracle id).1).capturedPixels = stateDone.capturedPixels ∧
    ((loopStep stateJustDone 100 zeroOracle id).1).completionTime = 100 :=
  ⟨(loopStep_completion_frozen stateDone 100 zeroOracle id).1 (by with_unfolding_all decide),
   (loopStep_completion_frozen stateDone 100 zeroOracle id).2.1 (by with_unfolding_all decide),
   (loopStep_completion_frozen stateJustDone 100 zeroOracle id).2.2
     (by with_unfolding_all decide) (by with_unfolding_all decide)
     (by with_unfolding_all decide)⟩

/-- C3: on every frame in which the cleanup step runs (the 50 ms gate
passes, the text is not complete, no completion timestamp), every bird
remaining in the active collection afterwards lies within the extended
bounds: at most 25 units beyond each edge of the 64 by 32 matrix. -/
theorem loopStep_cleanup_within_bounds (s : SimState) (t : ℕ) (or : SpawnOracle)
    (upd : List FlockBird → List FlockBird)
    (hg : ¬ t - s.lastUpdate < 50)
    (hnc : ¬ s.targetPixels.card ≤ s.capturedPixels.card)
    (hct : s.completionTime = 0) :
    ∀ b ∈ ((loopStep s t or upd).1).flock,
      -25 ≤ b.position.x ∧ b.position.x ≤ 89 ∧
      -25 ≤ b.position.y ∧ b.position.y ≤ 57 := by
  have hflock : ((loopStep s t or upd).1).flock =
      cleanupFlock (upd (spawnStep { s with lastUpdate := t } t or).flock) := by
    unfold loopStep
    dsimp only
    split_ifs <;>
      first
        | (simp_all [runningStep_flock]; done)
        | (exfalso
           rename_i hlast
           exact absurd (of_decide_eq_true hlast) hnc)
  intro b hb
  rw [hflock] at hb
  unfold cleanupFlock at hb
  have hd : despawnPred b = false := by
    have h2 := (List.mem_filter.mp hb).2
    simpa using h2
  simp only [despawnPred, decide_eq_false_iff_not, not_or, not_lt] at hd
  exact ⟨hd.1, hd.2.1, hd.2.2.1, hd.2.2.2⟩

/-- C3 witness: at `stateFarBird`, whose only bird sits at `x = -30`, the
frame at 100 ms leaves only in-bounds birds; concretely the active
collection afterwards is empty — the `x = -30` bird is absent. -/
theorem loopStep_cleanup_within_bounds_witness :
    (∀ b ∈ ((loopStep stateFarBird 100 zeroOracle id).1).flock,
      -25 ≤ b.position.x ∧ b.position.x ≤ 89 ∧
      -25 ≤ b.position.y ∧ b.position.y ≤ 57) ∧
    ((loopStep stateFarBird 100 zeroOracle id).1).flock = [] :=
  ⟨loopStep_cleanup_within_bounds stateFarBird 100 zeroOracle id
      (by with_unfolding_all decide) (by with_unfolding_all decide)
      (by with_unfolding_all decide),
   by with_unfolding_all decide⟩

/-! ## Claim theorems: spawning -/

/-- C7: whenever the spawn gate fires (uncaptured target pixels remain,
more than 3000 ms since the last spawn, fewer than 200 active birds), the
number of newly created units is exactly `min 50 remaining`. -/
theorem spawnStep_wave_size (s : SimState) (t : ℕ) (or : SpawnOracle)
    (h1 : 0 < s.targetPixels.card - s.capturedPixels.card)
    (h2 : 3000 < (t - s.startTime) - s.lastSpawnTime)
    (h3 : s.flock.length < 200) :
    (spawnStep s t or).flock.length =
      s.flock.length + min 50 (s.targetPixels.card - s.capturedPixels.card) := by
  unfold spawnStep
  dsimp only
  rw [if_pos ⟨h1, h2, h3⟩]
  simp [createFlockFromDirection]

/-- C7 witness: at `stateSpawn` (4 target pixels, 1 captured, so
`remaining = 3`) a spawn at 5000 ms creates exactly 3 birds, not 50. -/
theorem spawnStep_wave_size_witness :
    0 < stateSpawn.targetPixels.card - stateSpawn.capturedPixels.card ∧
    (spawnStep stateSpawn 5000 zeroOracle).flock.length =
      stateSpawn.flock.length +
        min 50 (stateSpawn.targetPixels.card - stateSpawn.capturedPixels.card) ∧
    (spawnStep stateSpawn 5000 zeroOracle).flock.length = 3 :=
  ⟨by with_unfolding_all decide,
   spawnStep_wave_size stateSpawn 5000 zeroOracle (by with_unfolding_all decide)
     (by with_unfolding_all decide) (by with_unfolding_all decide),
   by with_unfolding_all decide⟩

/-- C6 counterexample: `top_left` is one of the 8 spawn directions, but its
entry point is the simplified shared point `(32, 16)`, which lies inside
the 64 by 32 screen bounds rather than outside them; concretely, the first
bird of a one-bird `top_left` wave (zero jitter) is created on screen. -/
theorem createFlock_diagonal_entry_inside_screen :
    dirTopLeft ∈ directions ∧
    entryBase dirTopLeft = ⟨32, 16⟩ ∧
    (0 ≤ (entryBase dirTopLeft).x ∧ (entryBase dirTopLeft).x < 64 ∧
      0 ≤ (entryBase dirTopLeft).y ∧ (entryBase dirTopLeft).y < 32) ∧
    ((createFlockFromDirection 1 dirTopLeft zeroOracle).getD 0 dummyBird).isOnScreen = true := by
  with_unfolding_all decide

/-- C6 (amended): for every direction in the 8-entry list, the spawn
routine creates exactly the requested number of units arranged in an
8-wide grid (`col = i % 8`, `row = i / 8`) offset from the direction's
entry point (plus per-unit random jitter); for the four axis directions
the entry point lies outside the screen bounds, while the four diagonal
directions all use the simplified entry point `(32, 16)`, inside the
screen. -/
theorem createFlock_formation (n : ℕ) (d : String) (or : SpawnOracle) (i : ℕ)
    (hd : d ∈ directions) (hi : i < n) :
    (createFlockFromDirection n d or).length = n ∧
    ((createFlockFromDirection n d or).getD i dummyBird).position =
      ⟨(entryBase d).x + (((i % 8 : ℕ) : ℚ) - 4) * 2 + or.posJitterX i,
       (entryBase d).y + ((i / 8 : ℕ) : ℚ) * 3 + or.posJitterY i⟩ ∧
    ((d = "left" ∨ d = "right" ∨ d = "top" ∨ d = "bottom") →
      ¬ (0 ≤ (entryBase d).x ∧ (entryBase d).x < 64 ∧
         0 ≤ (entryBase d).y ∧ (entryBase d).y < 32)) ∧
    (¬ (d = "left" ∨ d = "right" ∨ d = "top" ∨ d = "bottom") →
      entryBase d = ⟨32, 16⟩) := by
  refine ⟨?_, ?_, ?_, ?_⟩
  · simp [createFlockFromDirection]
  · simp [createFlockFromDirection, List.getD_eq_getElem?_getD, List.getElem?_map,
      List.getElem?_range, hi, mkFlockBird]
    constructor <;> ring
  · rintro (rfl | rfl | rfl | rfl) <;> with_unfolding_all decide
  · intro hno
    push_neg at hno
    obtain ⟨h1, h2, h3, h4⟩ := hno
    simp [entryBase, h1, h2, h3, h4]

/-- C6 witness: a 9-bird wave from the left (zero jitter); bird 8 sits at
the entry point `(-10, 16)` plus the grid offset for row 1, column 0,
giving `(-18, 19)`. -/
theorem createFlock_formation_witness :
    defaultDirection ∈ directions ∧ (8 : ℕ) < 9 ∧
    ((createFlockFromDirection 9 defaultDirection zeroOracle).length = 9 ∧
      ((createFlockFromDirection 9 defaultDirection zeroOracle).getD 8 dummyBird).position =
        ⟨(entryBase defaultDirection).x + (((8 % 8 : ℕ) : ℚ) - 4) * 2 + zeroOracle.posJitterX 8,
         (entryBase defaultDirection).y + ((8 / 8 : ℕ) : ℚ) * 3 + zeroOracle.posJitterY 8⟩ ∧
      ((defaultDirection = "left" ∨ defaultDirection = "right" ∨
          defaultDirection = "top" ∨ defaultDirection = "bottom") →
        ¬ (0 ≤ (entryBase defaultDirection).x ∧ (entryBase defaultDirection).x < 64 ∧
           0 ≤ (entryBase defaultDirection).y ∧ (entryBase defaultDirection).y < 32)) ∧
      (¬ (defaultDirection = "left" ∨ defaultDirection = "right" ∨
          defaultDirection = "top" ∨ defaultDirection = "bottom") →
        entryBase defaultDirection = ⟨32, 16⟩)) ∧
    ((createFlockFromDirection 9 defaultDirection zeroOracle).getD 8 dummyBird).position =
      ⟨-18, 19⟩ :=
  ⟨by with_unfolding_all decide, by decide,
   createFlock_formation 9 defaultDirection zeroOracle 8
     (by with_unfolding_all decide) (by decide),
   by with_unfolding_all decide⟩

/-! ## Claim theorems: rounding overflow -/

/-- C10: `edgeBird`, at continuous position `x = 63.7`, passes the
continuous on-screen test against `[0, 64) x [0, 32)` yet its rounded
pixel position is column 64, outside the 0..63 grid; in a frame over
`stateEdge` (whose target mask artificially contains `(64, 10)` to make
the capture check's verdict observable) that coordinate is inserted by the
capture check and appears among the frame's `drawPixel` calls. -/
theorem onScreen_rounding_exceeds_grid :
    edgeBird.isOnScreen = true ∧
    edgeBird.getPixelPos = ⟨64, 10⟩ ∧
    ¬ edgeBird.getPixelPos.x < 64 ∧
    (⟨64, 10⟩ : Position) ∈ ((loopStep stateEdge 100 zeroOracle id).1).capturedPixels ∧
    (⟨64, 10⟩ : Position) ∈ ((loopStep stateEdge 100 zeroOracle id).2).map Prod.fst := by
  with_unfolding_all decide

/-! ## Claim theorems: velocity clamp -/

theorem RVec2.magnitude_nonneg (v : RVec2) : 0 ≤ v.magnitude :=
  Real.sqrt_nonneg _

theorem RVec2.magnitude_smul (v : RVec2) (c : ℝ) :
    (v * c).magnitude = |c| * v.magnitude := by
  obtain ⟨vx, vy⟩ := v
  show Real.sqrt (vx * c * (vx * c) + vy * c * (vy * c)) =
    |c| * Real.sqrt (vx * vx + vy * vy)
  rw [show vx * c * (vx * c) + vy * c * (vy * c) = c * c * (vx * vx + vy * vy) by ring]
  rw [Real.sqrt_mul (mul_self_nonneg c), Real.sqrt_mul_self_eq_abs]

/-- C8: after each per-frame flocking update the velocity magnitude is at
most 3; when the accumulated force-and-jitter velocity exceeds that limit
it is rescaled to the same direction (multiplied by the positive scalar
`3 / magnitude`), and the position is advanced by exactly the resulting
velocity times 0.4. -/
theorem updateFlocking_clamps_velocity (b : RFlockBird) (others : List RFlockBird)
    (t : ℝ) (ac : Option RVec2) :
    ((b.updateFlocking others t ac).velocity).magnitude ≤ 3 ∧
    (b.updateFlocking others t ac).velocity =
      (if 3 < (b.forcedVelocity others t ac).magnitude
        then b.forcedVelocity others t ac * (3 / (b.forcedVelocity others t ac).magnitude)
        else b.forcedVelocity others t ac) ∧
    (b.updateFlocking others t ac).position =
      b.position + (b.updateFlocking others t ac).velocity * (0.4 : ℝ) := by
  unfold RFlockBird.updateFlocking
  dsimp only
  by_cases h : 3 < (b.forcedVelocity others t ac).magnitude
  · rw [if_pos h]
    have hpos : 0 < (b.forcedVelocity others t ac).magnitude :=
      lt_trans (by norm_num) h
    have hne : (b.forcedVelocity others t ac).magnitude ≠ 0 := ne_of_gt hpos
    have hnorm : (b.forcedVelocity others t ac).normalize * (3 : ℝ) =
        b.forcedVelocity others t ac * (3 / (b.forcedVelocity others t ac).magnitude) := by
      unfold RVec2.normalize
      rw [if_pos hpos]
      show RVec2.mk _ _ = RVec2.mk _ _
      congr 1 <;> field_simp
    refine ⟨?_, by rw [if_pos h]; exact hnorm, rfl⟩
    rw [hnorm]
    calc (b.forcedVelocity others t ac * (3 / (b.forcedVelocity others t ac).magnitude)).magnitude
        = |3 / (b.forcedVelocity others t ac).magnitude| *
            (b.forcedVelocity others t ac).magnitude := RVec2.magnitude_smul _ _
      _ = 3 / (b.forcedVelocity others t ac).magnitude *
            (b.forcedVelocity others t ac).magnitude := by
          rw [abs_of_pos (by positivity)]
      _ = 3 := div_mul_cancel₀ 3 hne
      _ ≤ 3 := le_rfl
  · rw [if_neg h]
    exact ⟨not_lt.mp h, by rw [if_neg h], rfl⟩

/-- C4 witness: instantiation of the amended claim at the nonnegative hue
`7/3` (and `s = 1`, `v = 1/2`), where the wrapped hue is concretely
`1/3`. -/
theorem hsvToRgb_wraps_nonneg_hue_witness :
    (0 : ℚ) ≤ 7/3 ∧
    (0 ≤ fmodQ (7/3) 1 ∧ fmodQ (7/3) 1 < 1 ∧
      fmodQ (7/3) 1 = 7/3 - ((⌊(7/3 : ℚ)⌋ : ℤ) : ℚ) ∧
      hsvToRgb (7/3) 1 (1/2) = hsvToRgb (fmodQ (7/3) 1) 1 (1/2) ∧
      hsvToRgb (7/3) 1 (1/2) =
        ⟨toByte ((specHsvChannels (7/3) 1 (1/2)).1 * 255),
         toByte ((specHsvChannels (7/3) 1 (1/2)).2.1 * 255),
         toByte ((specHsvChannels (7/3) 1 (1/2)).2.2 * 255)⟩) ∧
    fmodQ (7/3) 1 = 1/3 :=
  ⟨by with_unfolding_all decide,
   hsvToRgb_wraps_nonneg_hue (7/3) 1 (1/2) (by with_unfolding_all decide),
   by with_unfolding_all decide⟩
